import Mathlib

/-!
# Vigil — verification of the sampling and session lifecycle engine

Shallow embedding of the server core of the `vigil` process monitor:
* `src/server/src/sessionManager.ts` — SQLite-backed session store,
* `src/server/src/monitor.ts` — the per-process polling state machine,
* `src/server/src/server.ts` — the monitor registry (WebSocket command
  handlers and monitor event wiring).

SQLite REAL values are modelled as exact rationals (`ℚ`); `Date.now()`
timestamps and UUIDs are passed in explicitly as parameters wherever the
source calls `Date.now()` / `uuidv4()`.
-/

namespace Vigil

/-! ## Session store data model (sessionManager.ts)

A `sessions` row, as created by `createSession` and updated by
`endSession` / `updateSessionName`.  Nullable SQL columns are `Option`s. -/

structure Session where
  id : String
  name : String
  pid : Nat
  processName : String
  command : String
  startTime : Nat
  endTime : Option Nat
  avgCpu : Option ℚ
  maxCpu : Option ℚ
  avgMemory : Option ℚ
  maxMemory : Option ℚ
  deriving Repr, DecidableEq

/-- A `data_points` row (the AUTOINCREMENT surrogate key is omitted: the
code never reads it back). `ppid` is nullable (`ppid ?? null`). -/
structure DataPointRow where
  sessionId : String
  timestamp : Nat
  cpu : ℚ
  memory : ℚ
  ppid : Option Nat
  deriving Repr, DecidableEq

/-- The database state: the two tables created by `initDatabase`. -/
structure DB where
  sessions : List Session
  dataPoints : List DataPointRow
  deriving Repr, DecidableEq

/-- The empty database right after `initDatabase` on a fresh file. -/
def DB.empty : DB := ⟨[], []⟩

/-- Record of the fact that foreign keys are enforced at runtime:
`initDatabase` (sessionManager.ts lines 12-44) executes no
`PRAGMA foreign_keys` statement, and better-sqlite3 compiles its bundled
SQLite with `SQLITE_DEFAULT_FOREIGN_KEYS=1`, so the
`FOREIGN KEY (sessionId) REFERENCES sessions(id) ON DELETE CASCADE`
declared on `data_points` is enforced on every connection by default. -/
def foreignKeysEnforced : Bool := true

/-- Model of `createSession`: INSERT a fresh row with `endTime` and all four
aggregates NULL.  The `id` (a uuid in the source) and `startTime`
(`Date.now()`) are parameters.  An INSERT violating the PRIMARY KEY
throws in better-sqlite3 and leaves the table unchanged; we return the
unchanged database and no session in that case. -/
def createSession (db : DB) (id name : String) (pid : Nat)
    (processName command : String) (now : Nat) : DB × Option Session :=
  if db.sessions.any (fun s => s.id == id) then
    (db, none)
  else
    let s : Session :=
      { id := id, name := name, pid := pid, processName := processName,
        command := command, startTime := now, endTime := none,
        avgCpu := none, maxCpu := none, avgMemory := none, maxMemory := none }
    ({ db with sessions := db.sessions ++ [s] }, some s)

/-- Model of `addDataPoint`: INSERT one row into `data_points`.  The
function body performs no check of its own (in particular none on the
session row or its `endTime`), but the foreign key on `sessionId` is
enforced by the runtime (see `foreignKeysEnforced`): when a session row
with the id exists the INSERT succeeds, otherwise better-sqlite3 throws
`FOREIGN KEY constraint failed` and the table is unchanged.  The
returned flag is true on success and false on the thrown constraint
violation. -/
def addDataPoint (db : DB) (sessionId : String) (timestamp : Nat)
    (cpu memory : ℚ) (ppid : Option Nat) : DB × Bool :=
  if db.sessions.any (fun s => s.id == sessionId) then
    ({ db with
       dataPoints := db.dataPoints ++
         [{ sessionId := sessionId, timestamp := timestamp, cpu := cpu,
            memory := memory, ppid := ppid }] }, true)
  else (db, false)

/-- SQLite `MAX(x)` over the rows visible to the query: NULL on zero
rows, otherwise the greatest value. -/
def sqlMax (xs : List ℚ) : Option ℚ :=
  match xs with
  | [] => none
  | x :: rest => some (rest.foldl max x)

/-- SQLite `AVG(x)` over the rows visible to the query: NULL on zero
rows, otherwise the sum divided by the row count. -/
def sqlAvg (xs : List ℚ) : Option ℚ :=
  match xs with
  | [] => none
  | _ => some (xs.sum / (xs.length : ℚ))

/-- The rows of `data_points` with the given `sessionId` (the WHERE
clause shared by the stats query of `endSession` and by
`getSessionWithData`). -/
def rowsFor (db : DB) (sessionId : String) : List DataPointRow :=
  db.dataPoints.filter (fun d => d.sessionId == sessionId)

/-- Model of `getSession`: SELECT the session row by id. -/
def getSession (db : DB) (sessionId : String) : Option Session :=
  db.sessions.find? (fun s => s.id == sessionId)

/-- Model of `endSession`: compute `AVG(cpu), MAX(cpu), AVG(memory), MAX(memory)`
over the data points currently stored for the session, then UPDATE the
session row with `endTime = Date.now()` and the four aggregates, then
return `getSession(sessionId)`.  The UPDATE is unconditional: it neither
checks whether `endTime` is already set nor whether the session exists
(an UPDATE matching no row is a no-op). -/
def endSession (db : DB) (sessionId : String) (now : Nat) :
    DB × Option Session :=
  let rows := rowsFor db sessionId
  let avgCpu := sqlAvg (rows.map (·.cpu))
  let maxCpu := sqlMax (rows.map (·.cpu))
  let avgMemory := sqlAvg (rows.map (·.memory))
  let maxMemory := sqlMax (rows.map (·.memory))
  let db' : DB :=
    { db with
      sessions := db.sessions.map (fun s =>
        if s.id == sessionId then
          { s with endTime := some now, avgCpu := avgCpu, maxCpu := maxCpu,
                   avgMemory := avgMemory, maxMemory := maxMemory }
        else s) }
  (db', getSession db' sessionId)

/-- Model of `getSessionWithData`: the session row together with its data points
ordered by timestamp ascending; `none` when the session row is absent. -/
def getSessionWithData (db : DB) (sessionId : String) :
    Option (Session × List DataPointRow) :=
  match getSession db sessionId with
  | none => none
  | some s =>
      some (s, (rowsFor db sessionId).mergeSort
                 (fun a b => a.timestamp ≤ b.timestamp))

/-- Model of `deleteSession`: DELETE all data points with the given session id,
then DELETE the session row; returns whether the session DELETE changed
any row. -/
def deleteSession (db : DB) (sessionId : String) : DB × Bool :=
  let db1 : DB :=
    { db with dataPoints := db.dataPoints.filter (fun d =>
        ¬ (d.sessionId == sessionId)) }
  let existed := db1.sessions.any (fun s => s.id == sessionId)
  let db2 : DB :=
    { db1 with sessions := db1.sessions.filter (fun s =>
        ¬ (s.id == sessionId)) }
  (db2, existed)

/-- Model of `updateSessionName`: UPDATE the name where the id matches, then
return `getSession(sessionId)`. -/
def updateSessionName (db : DB) (sessionId name : String) :
    DB × Option Session :=
  let db' : DB :=
    { db with sessions := db.sessions.map (fun s =>
        if s.id == sessionId then { s with name := name } else s) }
  (db', getSession db' sessionId)

/-- Database states reachable from a fresh database by any sequence of
store operations. -/
inductive Reachable : DB → Prop
  | init : Reachable DB.empty
  | create (db : DB) (id name : String) (pid : Nat) (pn cmd : String)
      (now : Nat) : Reachable db →
      Reachable (createSession db id name pid pn cmd now).1
  | add (db : DB) (sid : String) (ts : Nat) (cpu mem : ℚ)
      (ppid : Option Nat) : Reachable db →
      Reachable (addDataPoint db sid ts cpu mem ppid).1
  | finalize (db : DB) (sid : String) (now : Nat) : Reachable db →
      Reachable (endSession db sid now).1
  | rename (db : DB) (sid name : String) : Reachable db →
      Reachable (updateSessionName db sid name).1
  | del (db : DB) (sid : String) : Reachable db →
      Reachable (deleteSession db sid).1

/-! ## ProcessMonitor (monitor.ts)

The monitor is a timer-driven polling state machine.  Its mutable fields
are `isRunning` and `timer` (a pending `setTimeout` handle or null); in
addition we track whether a dispatched `poll` is currently suspended at
its `await pidusage(pid)` (`inflight`), which is the only
suspension point inside a poll. -/

structure MonState where
  isRunning : Bool
  timerPending : Bool
  inflight : Bool
  deriving Repr, DecidableEq

/-- Events a `ProcessMonitor` emits. -/
inductive MonEv
  | data
  | error
  | stopped
  deriving Repr, DecidableEq

/-- The freshly constructed monitor: not running, no timer, no poll in
flight. -/
def MonState.idle : MonState :=
  { isRunning := false, timerPending := false, inflight := false }

/-- A process descriptor as returned by the process lookup
(`getProcessByPid`). -/
structure ProcessInfo where
  pid : Nat
  name : String
  cmd : String
  deriving Repr, DecidableEq

/-- Model of `ProcessMonitor.start`: if already running, return null
(no-op); otherwise look the pid up — on not-found throw
`Process with PID ... not found` leaving every field unchanged; on
success set `isRunning` and dispatch `poll()`, which runs synchronously
past its `isRunning` check up to the `await pidusage` suspension. -/
def ProcessMonitor.start (pid : Nat) (lookup : Option ProcessInfo)
    (s : MonState) : Except String (Option ProcessInfo) × MonState :=
  if s.isRunning then (.ok none, s)
  else
    match lookup with
    | none =>
        (.error ("Process with PID " ++ toString pid ++ " not found"), s)
    | some info =>
        (.ok (some info),
         { isRunning := true, timerPending := false, inflight := true })

/-- Model of `ProcessMonitor.stop`: clear the pending timer, set
`isRunning := false` (and emit `stopped`; the event list is handled by
the step relation below).  A poll suspended at its `await` is untouched. -/
def ProcessMonitor.stop (s : MonState) : MonState :=
  { isRunning := false, timerPending := false, inflight := s.inflight }

/-- One atomic scheduler step of a monitor after construction, labelled
with the list of events it emits, translated clause by clause from
`ProcessMonitor.poll` and `ProcessMonitor.stop`:

* `timerFire` — the pending `setTimeout` fires and dispatches `poll()`;
  the poll returns at once if `isRunning` is false, otherwise it suspends
  at `await pidusage`;
* `completeData` — the awaited sample resolves: emit `data`, then
  reschedule the timer iff still `isRunning`;
* `completeTerminated` — the await rejects with a "no such process"
  error: `this.stop()` (which emits `stopped`), emit
  `error "Process terminated"`, return without rescheduling;
* `completeOtherError` — the await rejects with any other `Error`:
  emit `error`, then reschedule iff still `isRunning`;
* `completeNonError` — the await rejects with a non-`Error` value: the
  `instanceof` guard emits nothing; reschedule iff still `isRunning`;
* `stopCall` — an external `stop()` call: clear timer, stop running,
  emit `stopped`.

`start()` is deliberately not a step: the claims below quantify over what
can happen to a monitor that is not restarted. -/
inductive MonStep : MonState → List MonEv → MonState → Prop
  | timerFire (s : MonState) (h : s.timerPending = true) :
      MonStep s []
        { isRunning := s.isRunning, timerPending := false,
          inflight := s.isRunning }
  | completeData (s : MonState) (h : s.inflight = true) :
      MonStep s [.data]
        { isRunning := s.isRunning, timerPending := s.isRunning,
          inflight := false }
  | completeTerminated (s : MonState) (h : s.inflight = true) :
      MonStep s [.stopped, .error]
        { isRunning := false, timerPending := false, inflight := false }
  | completeOtherError (s : MonState) (h : s.inflight = true) :
      MonStep s [.error]
        { isRunning := s.isRunning, timerPending := s.isRunning,
          inflight := false }
  | completeNonError (s : MonState) (h : s.inflight = true) :
      MonStep s []
        { isRunning := s.isRunning, timerPending := s.isRunning,
          inflight := false }
  | stopCall (s : MonState) :
      MonStep s [.stopped] (ProcessMonitor.stop s)

/-- Finitely many monitor steps, accumulating the emitted events. -/
inductive MonTrace : MonState → List MonEv → MonState → Prop
  | refl (s : MonState) : MonTrace s [] s
  | step (s₁ : MonState) (evs₁ : List MonEv) (s₂ : MonState)
      (evs₂ : List MonEv) (s₃ : MonState) :
      MonStep s₁ evs₁ s₂ → MonTrace s₂ evs₂ s₃ →
      MonTrace s₁ (evs₁ ++ evs₂) s₃

/-- The number of `data`/`error` events in a list (the "straggler"
events of the cancellation contract; `stopped` is a lifecycle event and
not counted). -/
def countDE (evs : List MonEv) : Nat :=
  evs.countP (fun e => e == MonEv.data || e == MonEv.error)

/-! ## MonitorRegistry (server.ts)

The registry state: the `activeMonitors` map (association list keyed by
pid — the source keys by `String(pid)`, an injective image of the pid),
the database, the `broadcast(...)` log and the `ws.send(...)` log. -/

/-- A WebSocket message relevant to the claims. `stoppedMsg` carries the
session payload of the `stopped` broadcast. -/
inductive WSMsg
  | started (sessionId : String)
  | datapoint (sessionId : String)
  | stoppedMsg (session : Option Session)
  | errorMsg (message : String)
  deriving Repr, DecidableEq

structure SrvState where
  active : List (Nat × String)
  db : DB
  broadcasts : List WSMsg
  sent : List WSMsg
  deriving Repr, DecidableEq

/-- The `stopped` event handler registered by the start
case: it only deletes the active entry for the pid — it neither
finalizes the session nor broadcasts anything. -/
def onStopped (pid : Nat) (st : SrvState) : SrvState :=
  { st with active := st.active.filter (fun e => ¬ (e.1 == pid)) }

/-- The `error` event handler: broadcast an error message
carrying the session id. -/
def onError (message : String) (st : SrvState) : SrvState :=
  { st with broadcasts := st.broadcasts ++ [WSMsg.errorMsg message] }

/-- The `data` event handler: `addDataPoint` then broadcast
a `datapoint` message (the success path: the handler appends under the
id of the session its own start path created, whose row exists). -/
def onData (sessionId : String) (ts : Nat) (cpu mem : ℚ)
    (ppid : Option Nat) (st : SrvState) : SrvState :=
  { st with
    db := (addDataPoint st.db sessionId ts cpu mem ppid).1,
    broadcasts := st.broadcasts ++ [WSMsg.datapoint sessionId] }

/-- What the registry observes when a monitor detects "no such process"
mid-poll: `this.stop()` synchronously emits `stopped` (handler: delete
the active entry), then the monitor emits
`error "Process terminated"` (handler: broadcast the error).  No other
registry code runs on this path. -/
def terminationEvent (pid : Nat) (st : SrvState) : SrvState :=
  onError "Process terminated" (onStopped pid st)

/-- The `stop` command case: look up the active entry; if none, do
nothing; otherwise `entry.monitor.stop()` (whose `stopped` event
synchronously runs `onStopped`), then `endSession(entry.sessionId)`,
then delete the entry again, then broadcast the finalized session. -/
def stopCommand (pid : Nat) (now : Nat) (st : SrvState) : SrvState :=
  match st.active.find? (fun e => e.1 == pid) with
  | none => st
  | some entry =>
      let st₁ := onStopped pid st
      let r := endSession st₁.db entry.2 now
      let st₂ : SrvState :=
        { st₁ with
          db := r.1,
          active := st₁.active.filter (fun e => ¬ (e.1 == pid)) }
      { st₂ with broadcasts := st₂.broadcasts ++ [WSMsg.stoppedMsg r.2] }

/-! ## The `start` command case as an interleavable handler

Each WebSocket `start` message runs an async handler.  The handler
suspends at its `await` points (`await getProcessByPid(pid)` and
`await monitor.start()`, whose body awaits a second lookup); between two
suspensions it runs synchronously and atomically on the Node event loop.
We split the handler into those maximal synchronous segments, indexed by
a program counter, so that several in-flight `start` commands can
interleave exactly where the source can.  The process-lookup result is
held fixed per command (the target process neither appears nor
disappears while the command is being handled). -/

structure StartThread where
  pid : Nat
  sessionName : String
  uuid : String
  lookup : Option ProcessInfo
  now : Nat
  pc : Nat
  deriving Repr, DecidableEq

/-- Model of JavaScript `Map.prototype.set` on the association list:
overwrite the entry with the key when present, otherwise append. -/
def setEntry (pid : Nat) (sid : String) (l : List (Nat × String)) :
    List (Nat × String) :=
  if l.any (fun e => e.1 == pid) then
    l.map (fun e => if e.1 == pid then (pid, sid) else e)
  else l ++ [(pid, sid)]

/-- One synchronous segment of the `start` case (server.ts 129-196):

* `pc = 0` — check `activeMonitors.has(String(pid))`; if present, send
  `Monitor already running for this process` and finish; otherwise
  suspend at `await getProcessByPid(pid)`;
* `pc = 1` — the lookup resolved: on not-found send `Process not found`
  and finish; otherwise `createSession` (an id collision would throw out
  of the handler into the catch-all, which sends
  `Invalid message format`), construct the monitor, register its
  handlers, call `monitor.start()` and suspend at its awaited lookup;
* `pc = 2` — `monitor.start()` resolved: `activeMonitors.set`, then
  broadcast `started`, and finish;
* `pc ≥ 3` — done. -/
def stepStart (st : SrvState) (t : StartThread) : SrvState × StartThread :=
  match t.pc with
  | 0 =>
      if st.active.any (fun e => e.1 == t.pid) then
        ({ st with sent := st.sent ++
             [WSMsg.errorMsg "Monitor already running for this process"] },
         { t with pc := 3 })
      else (st, { t with pc := 1 })
  | 1 =>
      match t.lookup with
      | none =>
          ({ st with sent := st.sent ++ [WSMsg.errorMsg "Process not found"] },
           { t with pc := 3 })
      | some info =>
          let r := createSession st.db t.uuid t.sessionName t.pid
                     info.name info.cmd t.now
          match r.2 with
          | none =>
              ({ st with sent := st.sent ++
                   [WSMsg.errorMsg "Invalid message format"] },
               { t with pc := 3 })
          | some _ => ({ st with db := r.1 }, { t with pc := 2 })
  | 2 =>
      ({ st with
         active := setEntry t.pid t.uuid st.active,
         broadcasts := st.broadcasts ++ [WSMsg.started t.uuid] },
       { t with pc := 3 })
  | _ => (st, t)

/-- Run a schedule (a list of thread indices) over several in-flight
`start` handlers: each schedule entry lets the named handler execute
its next synchronous segment. -/
def runStart (st : SrvState) (ts : List StartThread) (sched : List Nat) :
    SrvState × List StartThread :=
  match sched with
  | [] => (st, ts)
  | i :: rest =>
      match ts[i]? with
      | none => runStart st ts rest
      | some t =>
          let r := stepStart st t
          runStart r.1 (ts.set i r.2) rest

/-! ## Concrete fixtures used by the witnesses and counterexamples -/

/-- A database holding one freshly created session `a` and no samples. -/
def exDB1 : DB := (createSession DB.empty "a" "n" 1 "p" "c" 0).1

/-- The database `exDB1` after finalizing session `a` (zero samples) at
time 5. -/
def exDB2 : DB := (endSession exDB1 "a" 5).1

/-- The database `exDB1` with three samples appended to session `a`:
cpu 10, 20, 30 and memory 100, 200, 300. -/
def exDBpts : DB :=
  (addDataPoint ((addDataPoint ((addDataPoint exDB1 "a" 1 10 100
    none).1) "a" 2 20 200 none).1) "a" 3 30 300 none).1

/-- A live process with pid 42 as the lookup would report it. -/
def exProc : ProcessInfo := { pid := 42, name := "node", cmd := "node app" }

/-- The registry state right after server start: no active monitors,
empty database, nothing broadcast or sent. -/
def exSrv0 : SrvState :=
  { active := [], db := DB.empty, broadcasts := [], sent := [] }

/-- A `start` command for pid 42 that will create session `s1`. -/
def exThreadA : StartThread :=
  { pid := 42, sessionName := "n", uuid := "s1", lookup := some exProc,
    now := 10, pc := 0 }

/-- A second, concurrent `start` command for pid 42 that will create
session `s2`. -/
def exThreadB : StartThread :=
  { pid := 42, sessionName := "n", uuid := "s2", lookup := some exProc,
    now := 11, pc := 0 }

/-! ## Helper lemmas -/

lemma foldl_max_mem (x : ℚ) (l : List ℚ) : l.foldl max x ∈ x :: l := by
  induction l generalizing x with
  | nil => simp
  | cons y l ih =>
    rw [List.foldl_cons]
    rcases List.mem_cons.mp (ih (max x y)) with h1 | h1
    · rw [h1]
      rcases max_choice x y with hc | hc
      · rw [hc]; exact List.mem_cons_self _ _
      · rw [hc]; exact List.mem_cons_of_mem _ (List.mem_cons_self _ _)
    · exact List.mem_cons_of_mem _ (List.mem_cons_of_mem _ h1)

lemma le_foldl_max (x : ℚ) (l : List ℚ) : ∀ y ∈ x :: l, y ≤ l.foldl max x := by
  induction l generalizing x with
  | nil =>
    intro y hy
    rw [List.mem_singleton] at hy
    simp [hy]
  | cons z l ih =>
    intro y hy
    rw [List.foldl_cons]
    have hfold : max x z ≤ l.foldl max (max x z) :=
      ih (max x z) (max x z) (List.mem_cons_self _ _)
    rcases List.mem_cons.mp hy with rfl | h1
    · exact le_trans (le_max_left y z) hfold
    · rcases List.mem_cons.mp h1 with rfl | h2
      · exact le_trans (le_max_right x y) hfold
      · exact ih (max x z) y (List.mem_cons_of_mem _ h2)

lemma sqlMax_spec (xs : List ℚ) (h : xs ≠ []) :
    ∃ m, sqlMax xs = some m ∧ m ∈ xs ∧ ∀ x ∈ xs, x ≤ m := by
  match xs, h with
  | x :: rest, _ =>
    exact ⟨rest.foldl max x, rfl, foldl_max_mem x rest, le_foldl_max x rest⟩

lemma sqlAvg_spec (xs : List ℚ) (h : xs ≠ []) :
    ∃ a, sqlAvg xs = some a ∧ a * (xs.length : ℚ) = xs.sum := by
  match xs, h with
  | x :: rest, _ =>
    refine ⟨(x :: rest).sum / ((x :: rest).length : ℚ), rfl, ?_⟩
    have hlen : (((x :: rest).length : ℕ) : ℚ) ≠ 0 := by
      have hpos : (0 : ℚ) < ((x :: rest).length : ℚ) := by
        exact_mod_cast Nat.succ_pos rest.length
      exact ne_of_gt hpos
    exact div_mul_cancel₀ _ hlen

/-- An UPDATE touching only rows whose id matches commutes with the
SELECT of that id, provided the update keeps the id. -/
lemma find?_map_update (l : List Session) (sid : String)
    (f : Session → Session) (hf : ∀ s, (f s).id = s.id) :
    (l.map (fun s => if s.id == sid then f s else s)).find?
        (fun s => s.id == sid) =
      (l.find? (fun s => s.id == sid)).map f := by
  induction l with
  | nil => rfl
  | cons t l ih =>
    by_cases h : (t.id == sid) = true
    · have hmap : ((if t.id == sid then f t else t).id == sid) = true := by
        rw [if_pos h, hf t]; exact h
      rw [List.map_cons,
        List.find?_cons_of_pos (p := fun (s : Session) => s.id == sid) _ hmap,
        List.find?_cons_of_pos (p := fun (s : Session) => s.id == sid) _ h, if_pos h]
      rfl
    · have hmap : ¬ ((if t.id == sid then f t else t).id == sid) = true := by
        rw [if_neg h]; exact h
      rw [List.map_cons,
        List.find?_cons_of_neg (p := fun (s : Session) => s.id == sid) _ hmap,
        List.find?_cons_of_neg (p := fun (s : Session) => s.id == sid) _ h, ih]

/-- A defining equation of `endSession`: the returned record is the
looked-up record with `endTime` and the four recomputed aggregates
written over it. -/
lemma endSession_snd (db : DB) (sid : String) (now : Nat) :
    (endSession db sid now).2 = (getSession db sid).map (fun s =>
      { s with
        endTime := some now,
        avgCpu := sqlAvg ((rowsFor db sid).map (·.cpu)),
        maxCpu := sqlMax ((rowsFor db sid).map (·.cpu)),
        avgMemory := sqlAvg ((rowsFor db sid).map (·.memory)),
        maxMemory := sqlMax ((rowsFor db sid).map (·.memory)) }) := by
  have h1 : (endSession db sid now).2 =
      (db.sessions.map (fun s =>
        if s.id == sid then
          { s with
            endTime := some now,
            avgCpu := sqlAvg ((rowsFor db sid).map (·.cpu)),
            maxCpu := sqlMax ((rowsFor db sid).map (·.cpu)),
            avgMemory := sqlAvg ((rowsFor db sid).map (·.memory)),
            maxMemory := sqlMax ((rowsFor db sid).map (·.memory)) }
        else s)).find? (fun s => s.id == sid) := rfl
  rw [h1, find?_map_update db.sessions sid
    (fun s =>
      { s with
        endTime := some now,
        avgCpu := sqlAvg ((rowsFor db sid).map (·.cpu)),
        maxCpu := sqlMax ((rowsFor db sid).map (·.cpu)),
        avgMemory := sqlAvg ((rowsFor db sid).map (·.memory)),
        maxMemory := sqlMax ((rowsFor db sid).map (·.memory)) })
    (fun s => rfl)]
  rfl

/-! ## Theorems for the claims -/

/-- C3: for every session with at least one stored sample, `endSession`
sets `avgCpu` to the arithmetic mean of the stored cpu values (the
returned value times the sample count equals their sum) and `maxCpu` to
their maximum (a stored value that bounds them all), and likewise for
memory; for a session with zero stored samples all four aggregates are
`none` after finalization. -/
theorem c3_finalize_aggregates (db : DB) (sid : String) (now : Nat)
    (s : Session) (h : getSession db sid = some s) :
    ∃ s', (endSession db sid now).2 = some s' ∧
      s'.endTime = some now ∧
      (rowsFor db sid = [] →
        s'.avgCpu = none ∧ s'.maxCpu = none ∧
        s'.avgMemory = none ∧ s'.maxMemory = none) ∧
      (rowsFor db sid ≠ [] →
        (∃ a, s'.avgCpu = some a ∧
          a * (((rowsFor db sid).map (·.cpu)).length : ℚ) =
            ((rowsFor db sid).map (·.cpu)).sum) ∧
        (∃ m, s'.maxCpu = some m ∧ m ∈ (rowsFor db sid).map (·.cpu) ∧
          ∀ x ∈ (rowsFor db sid).map (·.cpu), x ≤ m) ∧
        (∃ a, s'.avgMemory = some a ∧
          a * (((rowsFor db sid).map (·.memory)).length : ℚ) =
            ((rowsFor db sid).map (·.memory)).sum) ∧
        (∃ m, s'.maxMemory = some m ∧ m ∈ (rowsFor db sid).map (·.memory) ∧
          ∀ x ∈ (rowsFor db sid).map (·.memory), x ≤ m)) := by
  rw [endSession_snd, h]
  refine ⟨_, rfl, rfl, ?_, ?_⟩
  · intro hrows
    simp [hrows, sqlAvg, sqlMax]
  · intro hrows
    have hcpu : (rowsFor db sid).map (·.cpu) ≠ [] := by
      simpa using hrows
    have hmem : (rowsFor db sid).map (·.memory) ≠ [] := by
      simpa using hrows
    obtain ⟨a₁, ha₁, ha₁'⟩ := sqlAvg_spec _ hcpu
    obtain ⟨m₁, hm₁, hm₁'⟩ := sqlMax_spec _ hcpu
    obtain ⟨a₂, ha₂, ha₂'⟩ := sqlAvg_spec _ hmem
    obtain ⟨m₂, hm₂, hm₂'⟩ := sqlMax_spec _ hmem
    exact ⟨⟨a₁, ha₁, ha₁'⟩, ⟨m₁, hm₁, hm₁'⟩, ⟨a₂, ha₂, ha₂'⟩,
      ⟨m₂, hm₂, hm₂'⟩⟩

/-- Witness for C3: the session of `exDBpts` (cpu samples 10, 20, 30 and
memory samples 100, 200, 300) finalized at time 9. -/
theorem c3_finalize_aggregates_witness :
    ∃ s', (endSession exDBpts "a" 9).2 = some s' ∧
      s'.endTime = some 9 ∧
      (rowsFor exDBpts "a" = [] →
        s'.avgCpu = none ∧ s'.maxCpu = none ∧
        s'.avgMemory = none ∧ s'.maxMemory = none) ∧
      (rowsFor exDBpts "a" ≠ [] →
        (∃ a, s'.avgCpu = some a ∧
          a * (((rowsFor exDBpts "a").map (·.cpu)).length : ℚ) =
            ((rowsFor exDBpts "a").map (·.cpu)).sum) ∧
        (∃ m, s'.maxCpu = some m ∧ m ∈ (rowsFor exDBpts "a").map (·.cpu) ∧
          ∀ x ∈ (rowsFor exDBpts "a").map (·.cpu), x ≤ m) ∧
        (∃ a, s'.avgMemory = some a ∧
          a * (((rowsFor exDBpts "a").map (·.memory)).length : ℚ) =
            ((rowsFor exDBpts "a").map (·.memory)).sum) ∧
        (∃ m, s'.maxMemory = some m ∧
          m ∈ (rowsFor exDBpts "a").map (·.memory) ∧
          ∀ x ∈ (rowsFor exDBpts "a").map (·.memory), x ≤ m)) :=
  c3_finalize_aggregates exDBpts "a" 9
    { id := "a", name := "n", pid := 1, processName := "p", command := "c",
      startTime := 0, endTime := none, avgCpu := none, maxCpu := none,
      avgMemory := none, maxMemory := none } (by decide)

/-- C2 (counterexample): the invariant `endTime != null ⟺ all four
aggregates != null` fails on a reachable database: create a session and
finalize it with zero recorded samples — `endTime` becomes non-null
while all four aggregates stay null. -/
theorem c2_invariant_cex :
    Reachable exDB2 ∧
    Option.map Session.endTime (getSession exDB2 "a") = some (some 5) ∧
    Option.map Session.avgCpu (getSession exDB2 "a") = some none ∧
    Option.map Session.maxCpu (getSession exDB2 "a") = some none ∧
    Option.map Session.avgMemory (getSession exDB2 "a") = some none ∧
    Option.map Session.maxMemory (getSession exDB2 "a") = some none :=
  ⟨Reachable.finalize _ "a" 5
      (Reachable.create _ "a" "n" 1 "p" "c" 0 Reachable.init),
    by decide, by decide, by decide, by decide, by decide⟩

/-- Every store operation preserves the one-sided aggregate invariant:
a session whose `endTime` is null has all four aggregates null. -/
lemma reachable_null_aggregates (db : DB) (hdb : Reachable db) :
    ∀ s ∈ db.sessions, s.endTime = none →
      s.avgCpu = none ∧ s.maxCpu = none ∧
      s.avgMemory = none ∧ s.maxMemory = none := by
  induction hdb with
  | init =>
    intro s hs _
    simp [DB.empty] at hs
  | create db id name pid pn cmd now hr ih =>
    intro s hs hend
    by_cases hc : db.sessions.any (fun t => t.id == id)
    · rw [show (createSession db id name pid pn cmd now).1 = db by
        simp [createSession, hc]] at hs
      exact ih s hs hend
    · rw [show (createSession db id name pid pn cmd now).1.sessions =
          db.sessions ++
            [{ id := id, name := name, pid := pid, processName := pn,
               command := cmd, startTime := now, endTime := none,
               avgCpu := none, maxCpu := none, avgMemory := none,
               maxMemory := none }] by
        simp [createSession, hc]] at hs
      rcases List.mem_append.mp hs with hmem | hmem
      · exact ih s hmem hend
      · rw [List.mem_singleton] at hmem
        subst hmem
        exact ⟨rfl, rfl, rfl, rfl⟩
  | add db sid ts cpu mem ppid hr ih =>
    intro s hs hend
    have hs' : s ∈ db.sessions := by
      by_cases hc : db.sessions.any (fun t => t.id == sid)
      · rw [show (addDataPoint db sid ts cpu mem ppid).1.sessions =
            db.sessions by simp [addDataPoint, hc]] at hs
        exact hs
      · rw [show (addDataPoint db sid ts cpu mem ppid).1.sessions =
            db.sessions by simp [addDataPoint, hc]] at hs
        exact hs
    exact ih s hs' hend
  | finalize db sid now hr ih =>
    intro s hs hend
    have hs' : s ∈ db.sessions.map (fun t =>
        if t.id == sid then
          { t with
            endTime := some now,
            avgCpu := sqlAvg ((rowsFor db sid).map (·.cpu)),
            maxCpu := sqlMax ((rowsFor db sid).map (·.cpu)),
            avgMemory := sqlAvg ((rowsFor db sid).map (·.memory)),
            maxMemory := sqlMax ((rowsFor db sid).map (·.memory)) }
        else t) := hs
    rw [List.mem_map] at hs'
    obtain ⟨t, ht, rfl⟩ := hs'
    by_cases hid : (t.id == sid) = true
    · rw [if_pos hid] at hend
      simp at hend
    · rw [if_neg hid] at hend ⊢
      exact ih t ht hend
  | rename db sid name hr ih =>
    intro s hs hend
    have hs' : s ∈ db.sessions.map (fun t =>
        if t.id == sid then { t with name := name } else t) := hs
    rw [List.mem_map] at hs'
    obtain ⟨t, ht, rfl⟩ := hs'
    by_cases hid : (t.id == sid) = true
    · rw [if_pos hid] at hend ⊢
      exact ih t ht hend
    · rw [if_neg hid] at hend ⊢
      exact ih t ht hend
  | del db sid hr ih =>
    intro s hs hend
    have hs' : s ∈ db.sessions.filter (fun t => ¬ (t.id == sid)) := hs
    exact ih s (List.mem_filter.mp hs').1 hend

/-- C2 (amended): for every session reachable by any sequence of store
operations, if `endTime` is null then all four aggregate fields are
null (equivalently, a non-null aggregate implies a non-null `endTime`);
the converse implication fails for sessions finalized with zero stored
samples. -/
theorem c2_invariant_amended (db : DB) (hdb : Reachable db)
    (s : Session) (hs : s ∈ db.sessions) (hend : s.endTime = none) :
    s.avgCpu = none ∧ s.maxCpu = none ∧
    s.avgMemory = none ∧ s.maxMemory = none :=
  reachable_null_aggregates db hdb s hs hend

/-- Witness for C2 (amended): the freshly created, not yet finalized
session of `exDB1` has all four aggregates null. -/
theorem c2_invariant_amended_witness :
    Session.avgCpu
        { id := "a", name := "n", pid := 1, processName := "p",
          command := "c", startTime := 0, endTime := none, avgCpu := none,
          maxCpu := none, avgMemory := none, maxMemory := none } = none ∧
      Session.maxCpu
        { id := "a", name := "n", pid := 1, processName := "p",
          command := "c", startTime := 0, endTime := none, avgCpu := none,
          maxCpu := none, avgMemory := none, maxMemory := none } = none ∧
      Session.avgMemory
        { id := "a", name := "n", pid := 1, processName := "p",
          command := "c", startTime := 0, endTime := none, avgCpu := none,
          maxCpu := none, avgMemory := none, maxMemory := none } = none ∧
      Session.maxMemory
        { id := "a", name := "n", pid := 1, processName := "p",
          command := "c", startTime := 0, endTime := none, avgCpu := none,
          maxCpu := none, avgMemory := none, maxMemory := none } = none :=
  c2_invariant_amended exDB1
    (Reachable.create _ "a" "n" 1 "p" "c" 0 Reachable.init)
    _ (by decide) rfl

/-- C4 (counterexample): `endSession` is not idempotent.  Session `a` of
`exDB2` was finalized at time 5; calling `endSession` again at time 9
overwrites `endTime` with 9, and after a sample slipped in between the
two calls the second call also recomputes `maxCpu` from `none` to a
value — so `endTime` is not set exactly once and the aggregates are
recomputed. -/
theorem c4_idempotence_cex :
    Option.map Session.endTime (getSession exDB2 "a") = some (some 5) ∧
    Option.map Session.endTime (endSession exDB2 "a" 9).2 =
      some (some 9) ∧
    Option.map Session.maxCpu (getSession exDB2 "a") = some none ∧
    Option.map Session.maxCpu
        (endSession (addDataPoint exDB2 "a" 6 7 8 none).1 "a" 9).2 =
      some (some 7) := by
  refine ⟨by decide, by decide, by decide, by decide⟩

/-- C4 (amended): a second `endSession` call on an already-finalized
session is not a no-op: it overwrites `endTime` with the current time
and recomputes all four aggregates from the samples stored at that
moment. -/
theorem c4_second_finalize_recomputes (db : DB) (sid : String)
    (now : Nat) (s : Session) (h : getSession db sid = some s)
    (hfin : s.endTime ≠ none) :
    ∃ s', (endSession db sid now).2 = some s' ∧
      s'.endTime = some now ∧
      s'.avgCpu = sqlAvg ((rowsFor db sid).map (·.cpu)) ∧
      s'.maxCpu = sqlMax ((rowsFor db sid).map (·.cpu)) ∧
      s'.avgMemory = sqlAvg ((rowsFor db sid).map (·.memory)) ∧
      s'.maxMemory = sqlMax ((rowsFor db sid).map (·.memory)) := by
  rw [endSession_snd, h]
  exact ⟨_, rfl, rfl, rfl, rfl, rfl, rfl⟩

/-- Witness for C4 (amended): re-finalizing the zero-sample-finalized
session of `exDB2` at time 9. -/
theorem c4_second_finalize_recomputes_witness :
    ∃ s', (endSession exDB2 "a" 9).2 = some s' ∧
      s'.endTime = some 9 ∧
      s'.avgCpu = sqlAvg ((rowsFor exDB2 "a").map (·.cpu)) ∧
      s'.maxCpu = sqlMax ((rowsFor exDB2 "a").map (·.cpu)) ∧
      s'.avgMemory = sqlAvg ((rowsFor exDB2 "a").map (·.memory)) ∧
      s'.maxMemory = sqlMax ((rowsFor exDB2 "a").map (·.memory)) :=
  c4_second_finalize_recomputes exDB2 "a" 9
    { id := "a", name := "n", pid := 1, processName := "p", command := "c",
      startTime := 0, endTime := some 5, avgCpu := none, maxCpu := none,
      avgMemory := none, maxMemory := none } (by decide) (by decide)

/-- C5 (counterexample): session `a` of `exDB2` is finalized
(`endTime = 5`), yet `addDataPoint` reports success and inserts the
sample row — it does not fail with a "session closed" storage error. -/
theorem c5_closed_append_cex :
    Option.map Session.endTime (getSession exDB2 "a") = some (some 5) ∧
    (addDataPoint exDB2 "a" 6 1 2 none).2 = true ∧
    (addDataPoint exDB2 "a" 6 1 2 none).1.dataPoints =
      [{ sessionId := "a", timestamp := 6, cpu := 1, memory := 2,
         ppid := none }] := by
  refine ⟨by decide, by decide, by decide⟩

/-- C5 (amended): `addDataPoint` never consults the session's row:
appending to a finalized session (endTime set) succeeds, inserts the
sample row, and raises no error; appends are accepted regardless of
whether `endTime` is null. -/
theorem c5_append_ignores_endTime (db : DB) (sid : String) (ts : Nat)
    (cpu mem : ℚ) (ppid : Option Nat) (s : Session)
    (h : getSession db sid = some s) (hfin : s.endTime ≠ none) :
    (addDataPoint db sid ts cpu mem ppid).1.dataPoints =
      db.dataPoints ++
        [{ sessionId := sid, timestamp := ts, cpu := cpu, memory := mem,
           ppid := ppid }] ∧
    (addDataPoint db sid ts cpu mem ppid).1.sessions = db.sessions ∧
    (addDataPoint db sid ts cpu mem ppid).2 = true := by
  have h' : db.sessions.find? (fun t => t.id == sid) = some s := h
  have hex : db.sessions.any (fun t => t.id == sid) = true := by
    rw [List.any_eq_true]
    exact ⟨s,
      List.mem_of_find?_eq_some (p := fun (t : Session) => t.id == sid) h',
      List.find?_some (p := fun (t : Session) => t.id == sid) h'⟩
  simp [addDataPoint, hex]

/-- Witness for C5 (amended): appending to the finalized session of
`exDB2`. -/
theorem c5_append_ignores_endTime_witness :
    (addDataPoint exDB2 "a" 6 1 2 none).1.dataPoints =
      exDB2.dataPoints ++
        [{ sessionId := "a", timestamp := 6, cpu := 1, memory := 2,
           ppid := none }] ∧
    (addDataPoint exDB2 "a" 6 1 2 none).1.sessions = exDB2.sessions ∧
    (addDataPoint exDB2 "a" 6 1 2 none).2 = true :=
  c5_append_ignores_endTime exDB2 "a" 6 1 2 none
    { id := "a", name := "n", pid := 1, processName := "p", command := "c",
      startTime := 0, endTime := some 5, avgCpu := none, maxCpu := none,
      avgMemory := none, maxMemory := none } (by decide) (by decide)

/-- C7: `deleteSession` returns true exactly when a session row with the
id existed; afterwards no sample row with that session id remains in the
store, the session row is gone, and the session is no longer queryable
with its data. -/
theorem c7_delete_cascades (db : DB) (sid : String) :
    ((deleteSession db sid).2 = true ↔ ∃ s ∈ db.sessions, s.id = sid) ∧
    (∀ d ∈ (deleteSession db sid).1.dataPoints, d.sessionId ≠ sid) ∧
    (∀ s ∈ (deleteSession db sid).1.sessions, s.id ≠ sid) ∧
    getSessionWithData (deleteSession db sid).1 sid = none := by
  have hdata : ∀ d ∈ (deleteSession db sid).1.dataPoints,
      d.sessionId ≠ sid := by
    intro d hd
    have hd' : d ∈ db.dataPoints.filter (fun e =>
        ¬ (e.sessionId == sid)) := hd
    have := (List.mem_filter.mp hd').2
    simpa using this
  have hsess : ∀ s ∈ (deleteSession db sid).1.sessions, s.id ≠ sid := by
    intro s hs
    have hs' : s ∈ db.sessions.filter (fun t => ¬ (t.id == sid)) := hs
    have := (List.mem_filter.mp hs').2
    simpa using this
  have hget : getSession (deleteSession db sid).1 sid = none := by
    rw [getSession, List.find?_eq_none]
    intro s hs
    simpa using hsess s hs
  refine ⟨?_, hdata, hsess, ?_⟩
  · show (db.sessions.any (fun s => s.id == sid)) = true ↔ _
    rw [List.any_eq_true]
    constructor
    · rintro ⟨s, hs, hid⟩
      exact ⟨s, hs, by simpa using hid⟩
    · rintro ⟨s, hs, hid⟩
      exact ⟨s, hs, by simpa using hid⟩
  · rw [getSessionWithData, hget]

/-- C10 (counterexample): the claim fails at the id `ghost`, for which
no session row exists: `addDataPoint` does not insert a sample row and
does not report success — the enforced foreign key makes the INSERT
fail with `FOREIGN KEY constraint failed`, leaving the database
unchanged, so no orphan sample is queryable under that id. -/
theorem c10_orphan_insert_cex :
    addDataPoint DB.empty "ghost" 1 2 3 none = (DB.empty, false) ∧
    rowsFor (addDataPoint DB.empty "ghost" 1 2 3 none).1 "ghost" = [] := by
  refine ⟨by decide, by decide⟩

/-- C10 (amended): the foreign key declared on `data_points` IS enforced
at runtime — better-sqlite3 compiles its bundled SQLite with
`SQLITE_DEFAULT_FOREIGN_KEYS=1` and `initDatabase` runs no pragma to
turn it off.  `addDataPoint` reports success exactly when a session row
with the id exists; in that case it appends the sample row, and for an
id with no session row the INSERT fails with
`FOREIGN KEY constraint failed` and changes nothing, so orphan sample
rows cannot be created. -/
theorem c10_fk_enforced_insert (db : DB) (sid : String) (ts : Nat)
    (cpu mem : ℚ) (ppid : Option Nat) :
    foreignKeysEnforced = true ∧
    ((addDataPoint db sid ts cpu mem ppid).2 = true ↔
      ∃ s ∈ db.sessions, s.id = sid) ∧
    ((addDataPoint db sid ts cpu mem ppid).2 = false →
      (addDataPoint db sid ts cpu mem ppid).1 = db) ∧
    ((addDataPoint db sid ts cpu mem ppid).2 = true →
      (addDataPoint db sid ts cpu mem ppid).1.dataPoints =
        db.dataPoints ++
          [{ sessionId := sid, timestamp := ts, cpu := cpu, memory := mem,
             ppid := ppid }]) := by
  by_cases hc : db.sessions.any (fun t => t.id == sid)
  · refine ⟨rfl, ?_, ?_, ?_⟩
    · constructor
      · intro _
        rw [List.any_eq_true] at hc
        obtain ⟨t, ht, hid⟩ := hc
        exact ⟨t, ht, by simpa using hid⟩
      · intro _
        simp [addDataPoint, hc]
    · intro hfalse
      simp [addDataPoint, hc] at hfalse
    · intro _
      simp [addDataPoint, hc]
  · refine ⟨rfl, ?_, ?_, ?_⟩
    · constructor
      · intro htrue
        simp [addDataPoint, hc] at htrue
      · rintro ⟨t, ht, hid⟩
        exact absurd (List.any_eq_true.mpr ⟨t, ht, by simpa using hid⟩) hc
    · intro _
      simp [addDataPoint, hc]
    · intro htrue
      simp [addDataPoint, hc] at htrue

/-- C1 (counterexample): a monitor for pid 42 writing session `a` (open,
`endTime = null`) hits a mid-poll "no such process" failure.  The
registry removes the active entry, but the session is NOT finalized
(`endTime` stays null) and the only broadcast is the error message — no
finalized-session stop broadcast occurs. -/
theorem c1_stopped_event_cex :
    (terminationEvent 42
        { active := [(42, "a")], db := exDB1, broadcasts := [],
          sent := [] }).active = [] ∧
    Option.map Session.endTime
        (getSession
          (terminationEvent 42
            { active := [(42, "a")], db := exDB1, broadcasts := [],
              sent := [] }).db "a") = some none ∧
    (terminationEvent 42
        { active := [(42, "a")], db := exDB1, broadcasts := [],
          sent := [] }).broadcasts =
      [WSMsg.errorMsg "Process terminated"] := by
  refine ⟨by decide, by decide, by decide⟩

/-- C1 (amended): on the monitor's terminated/stopped lifecycle event
the registry only removes the active entry for the pid; it does not
touch the database (no finalization) and, on the mid-poll
"no such process" path, broadcasts only the `Process terminated` error —
never a finalized session.  Finalize-and-broadcast happens only in the
explicit stop command handler. -/
theorem c1_stopped_event_only_removes_entry (st : SrvState) (pid : Nat) :
    (onStopped pid st).db = st.db ∧
    (onStopped pid st).broadcasts = st.broadcasts ∧
    (onStopped pid st).sent = st.sent ∧
    (∀ e ∈ (onStopped pid st).active, e.1 ≠ pid) ∧
    (terminationEvent pid st).db = st.db ∧
    (terminationEvent pid st).broadcasts =
      st.broadcasts ++ [WSMsg.errorMsg "Process terminated"] ∧
    (∀ e ∈ (terminationEvent pid st).active, e.1 ≠ pid) := by
  have hactive : ∀ e ∈ st.active.filter (fun e => ¬ (e.1 == pid)),
      e.1 ≠ pid := by
    intro e he
    have := (List.mem_filter.mp he).2
    simpa using this
  exact ⟨rfl, rfl, rfl, hactive, rfl, rfl, hactive⟩

/-- C6: in the interleaved schedule both `start` commands for pid 42
pass the `activeMonitors.has` check while the other is suspended at an
`await`; both create a session and broadcast `started`, and no
`AlreadyMonitoring` error is sent — two monitors end up running for one
pid.  Under the serialized schedule, the second command fails with
`Monitor already running for this process` and only one session exists. -/
theorem c6_concurrent_start_race :
    ((runStart exSrv0 [exThreadA, exThreadB] [0, 1, 0, 1, 0, 1]).1.broadcasts =
      [WSMsg.started "s1", WSMsg.started "s2"] ∧
    (runStart exSrv0 [exThreadA, exThreadB] [0, 1, 0, 1, 0, 1]).1.sent = [] ∧
    (runStart exSrv0 [exThreadA, exThreadB]
        [0, 1, 0, 1, 0, 1]).1.db.sessions.length = 2 ∧
    (runStart exSrv0 [exThreadA, exThreadB] [0, 1, 0, 1, 0, 1]).1.active =
      [(42, "s2")]) ∧
    ((runStart exSrv0 [exThreadA, exThreadB] [0, 0, 0, 1]).1.broadcasts =
      [WSMsg.started "s1"] ∧
    (runStart exSrv0 [exThreadA, exThreadB] [0, 0, 0, 1]).1.sent =
      [WSMsg.errorMsg "Monitor already running for this process"] ∧
    (runStart exSrv0 [exThreadA, exThreadB]
        [0, 0, 0, 1]).1.db.sessions.length = 1) := by
  refine ⟨⟨by decide, by decide, by decide, by decide⟩,
    by decide, by decide, by decide⟩

/-- C8: a `start` command for a pid whose lookup reports not-found sends
the `Process not found` error and leaves the registry state — database
(so no session row), active map, broadcasts — unchanged; and
`ProcessMonitor.start` on a not-running monitor with a failed lookup
throws and leaves the monitor state unchanged (still Idle: not running,
no timer pending, no poll in flight). -/
theorem c8_start_not_found (st : SrvState) (pid : Nat) (nm uuid : String)
    (now : Nat) (ms : MonState)
    (hactive : st.active.any (fun e => e.1 == pid) = false)
    (hidle : ms.isRunning = false) :
    (runStart st
        [{ pid := pid, sessionName := nm, uuid := uuid, lookup := none,
           now := now, pc := 0 }] [0, 0]).1 =
      { st with sent := st.sent ++ [WSMsg.errorMsg "Process not found"] } ∧
    ProcessMonitor.start pid none ms =
      (Except.error ("Process with PID " ++ toString pid ++ " not found"),
        ms) := by
  constructor
  · simp [runStart, stepStart, hactive]
  · simp [ProcessMonitor.start, hidle]

/-- Witness for C8: start of pid 9999 on the fresh registry state with
an idle monitor. -/
theorem c8_start_not_found_witness :
    (runStart exSrv0
        [{ pid := 9999, sessionName := "n", uuid := "s9", lookup := none,
           now := 0, pc := 0 }] [0, 0]).1 =
      { exSrv0 with
        sent := exSrv0.sent ++ [WSMsg.errorMsg "Process not found"] } ∧
    ProcessMonitor.start 9999 none MonState.idle =
      (Except.error ("Process with PID " ++ toString 9999 ++ " not found"),
        MonState.idle) :=
  c8_start_not_found exSrv0 9999 "n" "s9" 0 MonState.idle (by decide)
    (by decide)

/-- Concatenating event lists adds their data/error counts. -/
lemma countDE_append (xs ys : List MonEv) :
    countDE (xs ++ ys) = countDE xs + countDE ys :=
  List.countP_append _ _ _

/-- From any state with the timer cleared and `isRunning` false, every
subsequent trace (timer firings, poll completions, further stop calls —
but no restart) keeps the timer cleared and the monitor stopped, and
emits at most one data/error event, and that only if a poll was in
flight at the start of the trace. -/
lemma monTrace_stopped_inv (s : MonState) (evs : List MonEv)
    (s' : MonState) (htr : MonTrace s evs s') :
    s.isRunning = false → s.timerPending = false →
      s'.isRunning = false ∧ s'.timerPending = false ∧
      countDE evs ≤ (if s.inflight then 1 else 0) := by
  induction htr with
  | refl t =>
    intro hrun htimer
    exact ⟨hrun, htimer, by simp [countDE]⟩
  | step s₁ evs₁ s₂ evs₂ s₃ hstep htr ih =>
    intro hrun htimer
    cases hstep with
    | timerFire h =>
      rw [htimer] at h
      cases h
    | completeData h =>
      obtain ⟨h1, h2, h3⟩ := ih (by simpa using hrun) (by simpa using hrun)
      refine ⟨h1, h2, ?_⟩
      have hz : countDE evs₂ = 0 := Nat.le_zero.mp (by simpa using h3)
      rw [countDE_append, h, hz]
      decide
    | completeTerminated h =>
      obtain ⟨h1, h2, h3⟩ := ih rfl rfl
      refine ⟨h1, h2, ?_⟩
      have hz : countDE evs₂ = 0 := Nat.le_zero.mp (by simpa using h3)
      rw [countDE_append, h, hz]
      decide
    | completeOtherError h =>
      obtain ⟨h1, h2, h3⟩ := ih (by simpa using hrun) (by simpa using hrun)
      refine ⟨h1, h2, ?_⟩
      have hz : countDE evs₂ = 0 := Nat.le_zero.mp (by simpa using h3)
      rw [countDE_append, h, hz]
      decide
    | completeNonError h =>
      obtain ⟨h1, h2, h3⟩ := ih (by simpa using hrun) (by simpa using hrun)
      refine ⟨h1, h2, ?_⟩
      have hz : countDE evs₂ = 0 := Nat.le_zero.mp (by simpa using h3)
      rw [countDE_append, h, hz]
      decide
    | stopCall =>
      obtain ⟨h1, h2, h3⟩ := ih rfl rfl
      refine ⟨h1, h2, ?_⟩
      rw [countDE_append,
        show countDE [MonEv.stopped] = 0 from by decide, Nat.zero_add]
      exact h3

/-- C9: after `stop()` the pending timer is cancelled and the monitor is
stopped (`isRunning = false`), along every subsequent trace no poll is
ever rescheduled (the timer stays clear and the monitor stays stopped at
every reachable state, each being the end of a prefix trace), and at
most one straggler data/error event is emitted — and only when a poll
was already in flight when `stop` was called. -/
theorem c9_stop_cancels_polling (s : MonState) (evs : List MonEv)
    (s' : MonState) (htr : MonTrace (ProcessMonitor.stop s) evs s') :
    (ProcessMonitor.stop s).isRunning = false ∧
    (ProcessMonitor.stop s).timerPending = false ∧
    s'.isRunning = false ∧ s'.timerPending = false ∧
    countDE evs ≤ (if s.inflight then 1 else 0) := by
  obtain ⟨h1, h2, h3⟩ := monTrace_stopped_inv _ evs s' htr rfl rfl
  exact ⟨rfl, rfl, h1, h2, h3⟩

/-- Witness for C9: stopping a running monitor with a poll in flight;
the straggler completes with one data event and nothing follows. -/
theorem c9_stop_cancels_polling_witness :
    (ProcessMonitor.stop
        { isRunning := true, timerPending := false,
          inflight := true }).isRunning = false ∧
    (ProcessMonitor.stop
        { isRunning := true, timerPending := false,
          inflight := true }).timerPending = false ∧
    ({ isRunning := false, timerPending := false,
       inflight := false } : MonState).isRunning = false ∧
    ({ isRunning := false, timerPending := false,
       inflight := false } : MonState).timerPending = false ∧
    countDE ([MonEv.data] ++ []) ≤
      (if ({ isRunning := true, timerPending := false,
             inflight := true } : MonState).inflight then 1 else 0) :=
  c9_stop_cancels_polling
    { isRunning := true, timerPending := false, inflight := true }
    ([MonEv.data] ++ [])
    { isRunning := false, timerPending := false, inflight := false }
    (MonTrace.step _ _ _ _ _ (MonStep.completeData _ rfl)
      (MonTrace.refl _))

end Vigil
